import Mathlib

/-!
Verification of the hybrid document-AI worker (src/main.py) against its
natural-language specification.  The Python source is shallowly embedded:
pure Python functions become Lean functions over String, Int, Nat and the
rational numbers; machine behaviour of the external document and OCR
libraries is passed in as explicit parameters.
-/

/-! ## Python string primitives used by the source -/

/-- Python `s or d` for strings: the empty string is falsy. -/
def pyOrS (s d : String) : String := if s = "" then d else s

/-- Contiguous sublist test on character lists. -/
def isSubChars (needle : List Char) : List Char → Bool
  | [] => needle.isEmpty
  | c :: t => needle.isPrefixOf (c :: t) || isSubChars needle t

/-- Python `needle in hay` substring test. -/
def containsSub (needle hay : String) : Bool := isSubChars needle.toList hay.toList

/-- Python `s.endswith(suf)`. -/
def endsWithStr (s suf : String) : Bool := suf.toList.isSuffixOf s.toList

/-- Regex alternation of literal suffixes anchored at end of string. -/
def endsWithAny (s : String) (sufs : List String) : Bool :=
  sufs.any (fun k => endsWithStr s k)

/-- Python `any(keyword in hay for keyword in keys)`. -/
def containsAny (hay : String) (keys : List String) : Bool :=
  keys.any (fun k => containsSub k hay)

/-- Match of a regex of shape `^\s*[cs]` against an already stripped string:
the first character must belong to the class. -/
def firstCharIn (s : String) (cs : List Char) : Bool :=
  match s.toList with
  | [] => false
  | c :: _ => cs.contains c

/-- Python `s.isupper()`: at least one cased character and no lowercase one. -/
def pyIsUpper (s : String) : Bool :=
  s.toList.any (fun c => c.isAlpha) && s.toList.all (fun c => !c.isLower)

/-- Python `s.lower()` (ASCII casing). -/
def pyLower (s : String) : String := String.mk (s.toList.map Char.toLower)

/-- Python `s.strip()`: remove leading and trailing whitespace. -/
def pyStrip (s : String) : String :=
  String.mk (((s.toList.dropWhile Char.isWhitespace).reverse.dropWhile
    Char.isWhitespace).reverse)

/-- Python `s.lower().strip()`. -/
def pyLowerTrim (s : String) : String := pyStrip (pyLower s)

/-! ## Field classifier (classify_field_type, src/main.py lines 354-391) -/

/-- Character class of the first checkbox regex in classify_field_type. -/
def checkboxGlyphs : List Char := ['[', ']', '☐', '☑', '✓', '✗', 'x', 'X']

/-- Character class of the radio-button regex in classify_field_type. -/
def radioGlyphs : List Char := ['○', '●']

/-- Suffix alternatives of the second checkbox regex in classify_field_type. -/
def checkboxAnswerTokens : List String :=
  ["new", "additional", "damaged", "lost", "yes", "no", "male", "female", "mr", "ms", "mrs"]

/-- Keyword set of the table-cell branch of classify_field_type. -/
def tableCellKeywords : List String := ["no.", "date", "name", "nric", "contact", "address"]

/-- Keyword set of the text-field branch of classify_field_type. -/
def textFieldKeywords : List String :=
  ["name", "nric", "contact", "address", "email", "phone", "date of birth", "occupation"]

/-- Keyword set of the title branch of classify_field_type. -/
def titleKeywords : List String :=
  ["application", "form", "details", "information", "section"]

/-- First rule of classify_field_type: one of the three checkbox regexes matches
the lowercased stripped text. -/
def checkboxRule (text : String) : Bool :=
  let tl := pyLowerTrim text
  firstCharIn tl checkboxGlyphs || endsWithAny tl checkboxAnswerTokens ||
    firstCharIn tl radioGlyphs

/-- Second rule of classify_field_type: short text containing a tabular keyword. -/
def tableCellRule (text : String) : Bool :=
  decide (text.length < 50) && containsAny (pyLowerTrim text) tableCellKeywords

/-- Third rule of classify_field_type: colon-terminated text or a personal-data
keyword. -/
def textFieldRule (text : String) : Bool :=
  endsWithStr text ":" || containsAny (pyLowerTrim text) textFieldKeywords

/-- Fourth rule of classify_field_type: short text, fully uppercase or holding a
heading keyword. -/
def titleRule (text : String) : Bool :=
  decide (text.length < 60) && (pyIsUpper text || containsAny (pyLowerTrim text) titleKeywords)

/-- Fifth rule of classify_field_type: catch-all for short text. -/
def labelRule (text : String) : Bool := decide (text.length < 30)

/-- classify_field_type from src/main.py: the ordered cascade of the five rules,
defaulting to non_fillable.  The bounding polygon is received and ignored, as in
the source. -/
def classify_field_type (text : String) (bbox : List Int) : String :=
  if checkboxRule text then "checkbox"
  else if tableCellRule text then "table_cell"
  else if textFieldRule text then "text_field"
  else if titleRule text then "title"
  else if labelRule text then "label"
  else "non_fillable"

/-- The cascade as an explicit ordered rule table (predicate, result). -/
def classifyRules : List ((String → Bool) × String) :=
  [(checkboxRule, "checkbox"), (tableCellRule, "table_cell"),
   (textFieldRule, "text_field"), (titleRule, "title"), (labelRule, "label")]

/-- First-match evaluation of an ordered rule table; empty table gives the
default non_fillable. -/
def firstMatch : List ((String → Bool) × String) → String → String
  | [], _ => "non_fillable"
  | (p, r) :: rest, t => if p t then r else firstMatch rest t

/-- Claim C2: classify_field_type is a pure deterministic function of the text
that evaluates the ordered rule cascade checkbox, table_cell, text_field,
title, label with first match winning and non_fillable as default; the bounding
polygon (and hence any confidence value, which the function does not even
receive) never influences the result. -/
theorem claim_C2 (text : String) (bbox : List Int) :
    classify_field_type text bbox = firstMatch classifyRules text ∧
    (∀ bbox2 : List Int, classify_field_type text bbox = classify_field_type text bbox2) ∧
    (checkboxRule text = true → classify_field_type text bbox = "checkbox") ∧
    (checkboxRule text = false → tableCellRule text = true →
      classify_field_type text bbox = "table_cell") ∧
    (checkboxRule text = false → tableCellRule text = false → textFieldRule text = true →
      classify_field_type text bbox = "text_field") ∧
    (checkboxRule text = false → tableCellRule text = false → textFieldRule text = false →
      titleRule text = true → classify_field_type text bbox = "title") ∧
    (checkboxRule text = false → tableCellRule text = false → textFieldRule text = false →
      titleRule text = false → labelRule text = true →
      classify_field_type text bbox = "label") ∧
    (checkboxRule text = false → tableCellRule text = false → textFieldRule text = false →
      titleRule text = false → labelRule text = false →
      classify_field_type text bbox = "non_fillable") := by
  refine ⟨rfl, fun bbox2 => rfl, ?_, ?_, ?_, ?_, ?_, ?_⟩ <;>
    intros <;> simp [classify_field_type, *]

/-- Witness for claim C2: each rule of the cascade fires on a concrete input,
with all earlier rules false there. -/
theorem claim_C2_witness :
    classify_field_type "x" [] = "checkbox" ∧
    classify_field_type "Date" [] = "table_cell" ∧
    classify_field_type "Occupation" [] = "text_field" ∧
    classify_field_type "SECTION" [] = "title" ∧
    classify_field_type "zzz" [] = "label" ∧
    classify_field_type "zzzz zzzz zzzz zzzz zzzz zzzz zzzz" [] = "non_fillable" :=
  ⟨(claim_C2 "x" []).2.2.1 (by decide),
   (claim_C2 "Date" []).2.2.2.1 (by decide) (by decide),
   (claim_C2 "Occupation" []).2.2.2.2.1 (by decide) (by decide) (by decide),
   (claim_C2 "SECTION" []).2.2.2.2.2.1 (by decide) (by decide) (by decide) (by decide),
   (claim_C2 "zzz" []).2.2.2.2.2.2.1 (by decide) (by decide) (by decide) (by decide)
     (by decide),
   (claim_C2 "zzzz zzzz zzzz zzzz zzzz zzzz zzzz" []).2.2.2.2.2.2.2 (by decide) (by decide)
     (by decide) (by decide) (by decide)⟩

/-- Claim C10: for every text shorter than 30 characters classify_field_type
never returns non_fillable; the result is one of the five earlier types,
because the label rule catches everything the earlier rules missed. -/
theorem claim_C10 (text : String) (bbox : List Int) (h : text.length < 30) :
    classify_field_type text bbox ≠ "non_fillable" ∧
    classify_field_type text bbox ∈
      ["checkbox", "table_cell", "text_field", "title", "label"] := by
  unfold classify_field_type
  have hl : labelRule text = true := by simp [labelRule, h]
  split_ifs <;> simp_all

/-- Witness for claim C10 at the concrete three-character input. -/
theorem claim_C10_witness :
    "zzz".length < 30 ∧
    (classify_field_type "zzz" [] ≠ "non_fillable" ∧
      classify_field_type "zzz" [] ∈
        ["checkbox", "table_cell", "text_field", "title", "label"]) :=
  ⟨by decide, claim_C10 "zzz" [] (by decide)⟩

/-! ## Overlay compositor (overlay_pdf, src/main.py lines 888-996) -/

/-- A JSON value supplied in the overlay request values map. -/
inductive Value where
  | null
  | str (s : String)
  | bool (b : Bool)
  | num (n : Int)
deriving DecidableEq

/-- Python `str(value)` on an overlay value. -/
def pyStr : Value → String
  | Value.null => "None"
  | Value.str s => s
  | Value.bool true => "True"
  | Value.bool false => "False"
  | Value.num n => toString n

/-- The checkbox truthiness test of overlay_pdf:
`value is True or str(value).lower() in ["true", "1", "yes"]`. -/
def pyTruthyCheckbox (v : Value) : Bool :=
  decide (v = Value.bool true) || ["true", "1", "yes"].contains (pyLower (pyStr v))

/-- One entry of the fieldMap sent with the overlay request: stored geometry,
1-indexed page, and field type, as read by overlay_pdf. -/
structure FieldInfo where
  bbox : List ℚ
  page : Int
  ftype : String
deriving DecidableEq

/-- Python `min(a, b)` on two numbers. -/
def pyMin (a b : ℚ) : ℚ := if a ≤ b then a else b

/-- Python `max(a, b)` on two numbers. -/
def pyMax (a b : ℚ) : ℚ := if b ≤ a then a else b

/-- Geometry-to-rectangle conversion of overlay_pdf (lines 961-965): bounding
rectangle of the stored 8-number polygon, scaled by one half because OCR ran on
a 2x rasterization. -/
def bboxToRect (b : List ℚ) : ℚ × ℚ × ℚ × ℚ :=
  (pyMin (b.getD 0 0) (b.getD 6 0) / 2,
   pyMin (b.getD 1 0) (b.getD 3 0) / 2,
   pyMax (b.getD 2 0) (b.getD 4 0) / 2,
   pyMax (b.getD 5 0) (b.getD 7 0) / 2)

/-- The effect of one (id, value) pair in the overlay loop: skipped outright,
checkbox processed but nothing drawn, a checkmark drawn, or text inserted. -/
inductive OverlayAction where
  | skipped
  | noDraw
  | checkmark (pageIdx : Int) (rect : ℚ × ℚ × ℚ × ℚ)
  | insertText (pageIdx : Int) (rect : ℚ × ℚ × ℚ × ℚ) (s : String)
deriving DecidableEq

/-- The body of the per-field loop of overlay_pdf, lines 935-976.  The page
check of the source is only `page_num >= len(doc)`; a negative resolved index
passes it and is handed to the document library. -/
def overlay_process_field (pageCount : Nat) (fieldMap : List (String × FieldInfo))
    (fieldId : String) (v : Value) : OverlayAction :=
  if (v = Value.null ∨ v = Value.str "") ∧ v ≠ Value.bool false then OverlayAction.skipped
  else
    match fieldMap.lookup fieldId with
    | none => OverlayAction.skipped
    | some fi =>
      let pageNum : Int := fi.page - 1
      if (pageCount : Int) ≤ pageNum then OverlayAction.skipped
      else if fi.bbox.length ≠ 8 then OverlayAction.skipped
      else if fi.ftype = "checkbox" then
        if pyTruthyCheckbox v then OverlayAction.checkmark pageNum (bboxToRect fi.bbox)
        else OverlayAction.noDraw
      else OverlayAction.insertText pageNum (bboxToRect fi.bbox) (pyStr v)

/-- The whole overlay loop: each pair of the values map is handled
independently, in map order. -/
def overlay_values (pageCount : Nat) (fieldMap : List (String × FieldInfo))
    (values : List (String × Value)) : List OverlayAction :=
  values.map (fun p => overlay_process_field pageCount fieldMap p.1 p.2)

/-- Claim C3: a pair whose value is null or the empty string is skipped with no
mark written, but a value that is exactly boolean false is not treated as
empty: for a checkbox field it is processed and draws nothing, without error. -/
theorem claim_C3 (pageCount : Nat) (fieldMap : List (String × FieldInfo))
    (fieldId : String) (v : Value) (fi : FieldInfo) :
    ((v = Value.null ∨ v = Value.str "") → v ≠ Value.bool false →
      overlay_process_field pageCount fieldMap fieldId v = OverlayAction.skipped) ∧
    (fieldMap.lookup fieldId = some fi → fi.ftype = "checkbox" →
      fi.page - 1 < (pageCount : Int) → fi.bbox.length = 8 →
      overlay_process_field pageCount fieldMap fieldId (Value.bool false) =
        OverlayAction.noDraw) := by
  constructor
  · intro h hne
    unfold overlay_process_field
    rw [if_pos ⟨h, hne⟩]
  · intro hlk hty hpg hbb
    have ht : pyTruthyCheckbox (Value.bool false) = false := by decide
    simp [overlay_process_field, hlk, hty, hbb, ht, not_le.mpr hpg]

/-- Witness for claim C3 on a concrete one-field map: null skipped, empty
string skipped, boolean false processed to a silent no-draw. -/
theorem claim_C3_witness :
    overlay_process_field 1 [("f", ⟨[0, 0, 10, 0, 10, 10, 0, 10], 1, "checkbox"⟩)] "f"
      Value.null = OverlayAction.skipped ∧
    overlay_process_field 1 [("f", ⟨[0, 0, 10, 0, 10, 10, 0, 10], 1, "checkbox"⟩)] "f"
      (Value.str "") = OverlayAction.skipped ∧
    overlay_process_field 1 [("f", ⟨[0, 0, 10, 0, 10, 10, 0, 10], 1, "checkbox"⟩)] "f"
      (Value.bool false) = OverlayAction.noDraw :=
  ⟨(claim_C3 1 _ "f" Value.null ⟨[0, 0, 10, 0, 10, 10, 0, 10], 1, "checkbox"⟩).1
      (Or.inl rfl) (by decide),
   (claim_C3 1 _ "f" (Value.str "") ⟨[0, 0, 10, 0, 10, 10, 0, 10], 1, "checkbox"⟩).1
      (Or.inr rfl) (by decide),
   (claim_C3 1 _ "f" (Value.bool false) ⟨[0, 0, 10, 0, 10, 10, 0, 10], 1, "checkbox"⟩).2
      rfl rfl (by decide) (by decide)⟩

/-- Claim C5: the stored 8-number polygon c0.x, c0.y, c1.x, c1.y, c2.x, c2.y,
c3.x, c3.y maps to the rectangle with x0 = min(c0.x, c3.x)/2,
y0 = min(c0.y, c1.y)/2, x1 = max(c1.x, c2.x)/2, y1 = max(c2.y, c3.y)/2, and in
particular the polygon (100,100), (300,100), (300,140), (100,140) maps to the
rectangle (50,50)-(150,70). -/
theorem claim_C5 :
    (∀ c0x c0y c1x c1y c2x c2y c3x c3y : ℚ,
      bboxToRect [c0x, c0y, c1x, c1y, c2x, c2y, c3x, c3y] =
        (min c0x c3x / 2, min c0y c1y / 2, max c1x c2x / 2, max c2y c3y / 2)) ∧
    bboxToRect [100, 100, 300, 100, 300, 140, 100, 140] = (50, 50, 150, 70) := by
  have hmin : ∀ a b : ℚ, pyMin a b = min a b := fun a b => by rw [pyMin, min_def]
  have hmax : ∀ a b : ℚ, pyMax a b = max a b := fun a b => by
    unfold pyMax
    rcases le_or_lt b a with h | h
    · rw [if_pos h, max_eq_left h]
    · rw [if_neg (not_le.mpr h), max_eq_right h.le]
  constructor
  · intro c0x c0y c1x c1y c2x c2y c3x c3y
    simp [bboxToRect, hmin, hmax, List.getD]
  · norm_num [bboxToRect, pyMin, pyMax]

/-- Claim C7 as amended: a pair is skipped without error and without touching
the document when its id is not a key of the fieldMap, when the resolved
0-indexed page is greater than or equal to the page count (the source checks
only the upper bound, so a negative resolved index is not skipped), or when the
stored geometry does not have exactly 8 entries; each pair of the batch is
handled independently of the others. -/
theorem claim_C7 (pageCount : Nat) (fieldMap : List (String × FieldInfo))
    (fieldId : String) (v : Value) :
    (fieldMap.lookup fieldId = none →
      overlay_process_field pageCount fieldMap fieldId v = OverlayAction.skipped) ∧
    (∀ fi, fieldMap.lookup fieldId = some fi → (pageCount : Int) ≤ fi.page - 1 →
      overlay_process_field pageCount fieldMap fieldId v = OverlayAction.skipped) ∧
    (∀ fi, fieldMap.lookup fieldId = some fi → fi.bbox.length ≠ 8 →
      overlay_process_field pageCount fieldMap fieldId v = OverlayAction.skipped) ∧
    (∀ values : List (String × Value), ∀ i : Nat,
      (overlay_values pageCount fieldMap values)[i]? =
        (values[i]?).map (fun p => overlay_process_field pageCount fieldMap p.1 p.2)) := by
  refine ⟨?_, ?_, ?_, ?_⟩
  · intro hlk
    by_cases h : (v = Value.null ∨ v = Value.str "") ∧ v ≠ Value.bool false <;>
      simp [overlay_process_field, h, hlk]
  · intro fi hlk hpg
    by_cases h : (v = Value.null ∨ v = Value.str "") ∧ v ≠ Value.bool false <;>
      simp [overlay_process_field, h, hlk, hpg]
  · intro fi hlk hbb
    by_cases h : (v = Value.null ∨ v = Value.str "") ∧ v ≠ Value.bool false
    · simp [overlay_process_field, h]
    · simp only [overlay_process_field, if_neg h, hlk, hbb, ite_true, ne_eq,
        not_false_iff]
      split_ifs <;> rfl
  · intro values i
    simp [overlay_values]

/-- Witness for claim C7: each of the three skip conditions fires on a concrete
input. -/
theorem claim_C7_witness :
    overlay_process_field 1 [] "g" (Value.str "hi") = OverlayAction.skipped ∧
    overlay_process_field 1 [("f", ⟨[0, 0, 10, 0, 10, 10, 0, 10], 5, "checkbox"⟩)] "f"
      (Value.str "hi") = OverlayAction.skipped ∧
    overlay_process_field 1 [("f", ⟨[0, 0], 1, "checkbox"⟩)] "f"
      (Value.str "hi") = OverlayAction.skipped :=
  ⟨(claim_C7 1 [] "g" (Value.str "hi")).1 rfl,
   (claim_C7 1 [("f", ⟨[0, 0, 10, 0, 10, 10, 0, 10], 5, "checkbox"⟩)] "f" (Value.str "hi")).2.1
      ⟨[0, 0, 10, 0, 10, 10, 0, 10], 5, "checkbox"⟩ rfl (by norm_num),
   (claim_C7 1 [("f", ⟨[0, 0], 1, "checkbox"⟩)] "f" (Value.str "hi")).2.2.1
      ⟨[0, 0], 1, "checkbox"⟩ rfl (by norm_num)⟩

/-- Counterexample to claim C7 as stated: with one page and a stored page value
of 0, the resolved 0-indexed page is -1, which lies outside the valid page
indices, yet the pair is not skipped: the source only rejects indices greater
than or equal to the page count, and -1 is handed to the document library. -/
theorem claim_C7_counterexample :
    (⟨[0, 0, 10, 0, 10, 10, 0, 10], 0, "text_field"⟩ : FieldInfo).page - 1 < 0 ∧
    ¬(0 ≤ (⟨[0, 0, 10, 0, 10, 10, 0, 10], 0, "text_field"⟩ : FieldInfo).page - 1 ∧
      (⟨[0, 0, 10, 0, 10, 10, 0, 10], 0, "text_field"⟩ : FieldInfo).page - 1 < (1 : Int)) ∧
    overlay_process_field 1 [("f", ⟨[0, 0, 10, 0, 10, 10, 0, 10], 0, "text_field"⟩)] "f"
      (Value.str "hi") ≠ OverlayAction.skipped := by
  refine ⟨by norm_num, by norm_num, ?_⟩
  have hre : overlay_process_field 1 [("f", ⟨[0, 0, 10, 0, 10, 10, 0, 10], 0, "text_field"⟩)]
      "f" (Value.str "hi") = OverlayAction.insertText (-1) (0, 0, 5, 5) "hi" := by
    norm_num [overlay_process_field, pyTruthyCheckbox, pyStr, pyLower, bboxToRect,
      pyMin, pyMax, List.lookup]
    decide
  rw [hre]
  decide

/-! ## Text insertion with font fit (insert_text_in_box, src/main.py 1013-1039) -/

/-- A page rectangle as used by the overlay text insertion. -/
structure PRect where
  x0 : ℚ
  y0 : ℚ
  x1 : ℚ
  y1 : ℚ
deriving DecidableEq

/-- Rectangle width. -/
def PRect.width (r : PRect) : ℚ := r.x1 - r.x0

/-- Rectangle height. -/
def PRect.height (r : PRect) : ℚ := r.y1 - r.y0

/-- The font-fit while loop of insert_text_in_box.  The external text
measurement (get_text_length at fixed text and font) is a parameter giving the
measured width for a font size.  Fuel 9 covers every reachable iteration: the
guard reaches size 6 after eight decrements and stops. -/
def fitLoop (measure : ℚ → ℚ) (rectWidth : ℚ) : Nat → ℚ → ℚ
  | 0, size => size
  | fuel + 1, size =>
    if 6 < size then
      if measure size ≤ rectWidth * (95 / 100) then size
      else fitLoop measure rectWidth fuel (size - 1 / 2)
    else size

/-- insert_text_in_box from src/main.py: empty text returns without insertion;
otherwise the fitted font size and the insertion point are produced. -/
def insert_text_in_box (measure : ℚ → ℚ) (rect : PRect) (text : String) :
    Option ((ℚ × ℚ) × ℚ) :=
  if text = "" then none
  else
    let fontSize := fitLoop measure rect.width 9 10
    some ((rect.x0 + 2, rect.y0 + (rect.height + fontSize) / 2), fontSize)

/-- The sizes at which the loop measures the text, in the order tried. -/
def triedSizes : List ℚ := [10, 19/2, 9, 17/2, 8, 15/2, 7, 13/2]

/-- Declarative description of the font-fit loop: the first tried size whose
measured width is at most 95 percent of the rectangle width, and the floor 6
when no tried size fits. -/
def specFitSize (measure : ℚ → ℚ) (rectWidth : ℚ) : ℚ :=
  (triedSizes.find? (fun s => decide (measure s ≤ rectWidth * (95 / 100)))).getD 6

theorem fitLoop_eq_spec (m : ℚ → ℚ) (rw0 : ℚ) :
    fitLoop m rw0 9 10 = specFitSize m rw0 := by
  have step : ∀ (fuel : Nat) (size : ℚ), 6 < size →
      fitLoop m rw0 (fuel + 1) size =
        if m size ≤ rw0 * (95 / 100) then size
        else fitLoop m rw0 fuel (size - 1 / 2) := by
    intro fuel size h
    rw [fitLoop, if_pos h]
  simp only [specFitSize, triedSizes]
  rw [show (9 : Nat) = 8 + 1 from rfl, step 8 10 (by norm_num)]
  by_cases h1 : m 10 ≤ rw0 * (95 / 100)
  · rw [if_pos h1, List.find?_cons_of_pos _ (by simp [h1])]; rfl
  · rw [if_neg h1, List.find?_cons_of_neg _ (by simp [h1]),
      show (10 : ℚ) - 1 / 2 = 19 / 2 by norm_num, step 7 (19/2) (by norm_num)]
    by_cases h2 : m (19/2) ≤ rw0 * (95 / 100)
    · rw [if_pos h2, List.find?_cons_of_pos _ (by simp [h2])]; rfl
    · rw [if_neg h2, List.find?_cons_of_neg _ (by simp [h2]),
        show (19 : ℚ) / 2 - 1 / 2 = 9 by norm_num, step 6 9 (by norm_num)]
      by_cases h3 : m 9 ≤ rw0 * (95 / 100)
      · rw [if_pos h3, List.find?_cons_of_pos _ (by simp [h3])]; rfl
      · rw [if_neg h3, List.find?_cons_of_neg _ (by simp [h3]),
          show (9 : ℚ) - 1 / 2 = 17 / 2 by norm_num, step 5 (17/2) (by norm_num)]
        by_cases h4 : m (17/2) ≤ rw0 * (95 / 100)
        · rw [if_pos h4, List.find?_cons_of_pos _ (by simp [h4])]; rfl
        · rw [if_neg h4, List.find?_cons_of_neg _ (by simp [h4]),
            show (17 : ℚ) / 2 - 1 / 2 = 8 by norm_num, step 4 8 (by norm_num)]
          by_cases h5 : m 8 ≤ rw0 * (95 / 100)
          · rw [if_pos h5, List.find?_cons_of_pos _ (by simp [h5])]; rfl
          · rw [if_neg h5, List.find?_cons_of_neg _ (by simp [h5]),
              show (8 : ℚ) - 1 / 2 = 15 / 2 by norm_num, step 3 (15/2) (by norm_num)]
            by_cases h6 : m (15/2) ≤ rw0 * (95 / 100)
            · rw [if_pos h6, List.find?_cons_of_pos _ (by simp [h6])]; rfl
            · rw [if_neg h6, List.find?_cons_of_neg _ (by simp [h6]),
                show (15 : ℚ) / 2 - 1 / 2 = 7 by norm_num, step 2 7 (by norm_num)]
              by_cases h7 : m 7 ≤ rw0 * (95 / 100)
              · rw [if_pos h7, List.find?_cons_of_pos _ (by simp [h7])]; rfl
              · rw [if_neg h7, List.find?_cons_of_neg _ (by simp [h7]),
                  show (7 : ℚ) - 1 / 2 = 13 / 2 by norm_num, step 1 (13/2) (by norm_num)]
                by_cases h8 : m (13/2) ≤ rw0 * (95 / 100)
                · rw [if_pos h8, List.find?_cons_of_pos _ (by simp [h8])]; rfl
                · rw [if_neg h8, List.find?_cons_of_neg _ (by simp [h8]),
                    show (13 : ℚ) / 2 - 1 / 2 = 6 by norm_num, fitLoop,
                    if_neg (by norm_num : ¬(6 : ℚ) < 6)]
                  rfl

theorem specFitSize_bounds (m : ℚ → ℚ) (rw0 : ℚ) :
    6 ≤ specFitSize m rw0 ∧ specFitSize m rw0 ≤ 10 := by
  unfold specFitSize
  cases hf : triedSizes.find? (fun s => decide (m s ≤ rw0 * (95 / 100))) with
  | none => norm_num
  | some s =>
    have hs := List.mem_of_find?_eq_some hf
    simp only [triedSizes, List.mem_cons, List.not_mem_nil, or_false] at hs
    rcases hs with rfl | rfl | rfl | rfl | rfl | rfl | rfl | rfl <;> norm_num

/-- Claim C9: for a non-empty text the font-fit loop yields the first size in
10, 9.5, ..., 6.5 whose measured width is at most 95 percent of the rectangle
width, and 6 when none fits, so the final size always lies between 6 and 10;
the text is inserted at x = rect.x0 + 2 and y = rect.y0 + (height + size)/2. -/
theorem claim_C9 (measure : ℚ → ℚ) (rect : PRect) (text : String) (h : text ≠ "") :
    ∃ fs : ℚ,
      insert_text_in_box measure rect text =
        some ((rect.x0 + 2, rect.y0 + (rect.height + fs) / 2), fs) ∧
      fs = specFitSize measure rect.width ∧ 6 ≤ fs ∧ fs ≤ 10 := by
  refine ⟨fitLoop measure rect.width 9 10, ?_, ?_, ?_, ?_⟩
  · unfold insert_text_in_box
    rw [if_neg h]
  · exact fitLoop_eq_spec measure rect.width
  · rw [fitLoop_eq_spec]; exact (specFitSize_bounds measure rect.width).1
  · rw [fitLoop_eq_spec]; exact (specFitSize_bounds measure rect.width).2

/-- Witness for claim C9: a measurement that always fits keeps size 10, and one
that never fits floors at 6, both at the claimed position. -/
theorem claim_C9_witness :
    (∃ fs : ℚ,
      insert_text_in_box (fun _ => 0) ⟨0, 0, 100, 20⟩ "hi" =
        some (((0 : ℚ) + 2, (0 : ℚ) + ((⟨0, 0, 100, 20⟩ : PRect).height + fs) / 2), fs) ∧
      fs = specFitSize (fun _ => 0) (⟨0, 0, 100, 20⟩ : PRect).width ∧ 6 ≤ fs ∧ fs ≤ 10) ∧
    (∃ fs : ℚ,
      insert_text_in_box (fun _ => 1000) ⟨0, 0, 100, 20⟩ "hi" =
        some (((0 : ℚ) + 2, (0 : ℚ) + ((⟨0, 0, 100, 20⟩ : PRect).height + fs) / 2), fs) ∧
      fs = specFitSize (fun _ => 1000) (⟨0, 0, 100, 20⟩ : PRect).width ∧ 6 ≤ fs ∧ fs ≤ 10) :=
  ⟨claim_C9 (fun _ => 0) ⟨0, 0, 100, 20⟩ "hi" (by decide),
   claim_C9 (fun _ => 1000) ⟨0, 0, 100, 20⟩ "hi" (by decide)⟩

/-! ## Checkbox folding (group_checkboxes_to_dropdowns, src/main.py 531-572) -/

/-- A UI component inside a section: a checkbox, a dropdown, or any other
component (text_field and the like), carrying its type tag, id and title. -/
inductive Comp where
  | checkbox (id title : String)
  | dropdown (id title : String) (options : List String)
  | other (ctype id title : String)
deriving DecidableEq

/-- Test of the source comparison field["type"] == "checkbox". -/
def isCheckboxComp : Comp → Bool
  | Comp.checkbox _ _ => true
  | _ => false

/-- The id of a component. -/
def compId : Comp → String
  | Comp.checkbox i _ => i
  | Comp.dropdown i _ _ => i
  | Comp.other _ i _ => i

/-- The title of a component. -/
def compTitle : Comp → String
  | Comp.checkbox _ t => t
  | Comp.dropdown _ t _ => t
  | Comp.other _ _ t => t

/-- The flush of an accumulated checkbox group in the source: two or more
checkboxes become a single dropdown named after the first id, with the titles
as options and the section title as its own title; one checkbox stays itself;
an empty group adds nothing. -/
def flushCheckboxGroup (sectionTitle : String) (g : List Comp) : List Comp :=
  if 1 < g.length then
    [Comp.dropdown ("dropdown_" ++ compId (g.headD (Comp.checkbox "" "")))
      sectionTitle (g.map compTitle)]
  else g

/-- The per-section loop of group_checkboxes_to_dropdowns: checkboxes
accumulate; any other component flushes the accumulated group before it; the
trailing group is flushed at the end. -/
def groupLoop (sectionTitle : String) : List Comp → List Comp → List Comp
  | g, [] => flushCheckboxGroup sectionTitle g
  | g, f :: rest =>
    if isCheckboxComp f then groupLoop sectionTitle (g ++ [f]) rest
    else flushCheckboxGroup sectionTitle g ++ f :: groupLoop sectionTitle [] rest

/-- A section of the generated UI schema. -/
structure UiSection where
  title : String
  page : Int
  fields : List Comp
deriving DecidableEq

/-- group_checkboxes_to_dropdowns from src/main.py: the per-section post-pass
applied to every section. -/
def group_checkboxes_to_dropdowns (sections : List UiSection) : List UiSection :=
  sections.map (fun s => { s with fields := groupLoop s.title [] s.fields })

theorem dropWhileLengthLe {a : Type} (p : a → Bool) :
    ∀ l : List a, (l.dropWhile p).length ≤ l.length := by
  intro l
  induction l with
  | nil => simp [List.dropWhile]
  | cons x t ih =>
    by_cases h : p x
    · rw [List.dropWhile_cons, if_pos h]
      exact Nat.le_succ_of_le ih
    · rw [List.dropWhile_cons, if_neg h]

/-- The folding described by the specification: each maximal consecutive run of
two or more checkboxes (read off with takeWhile) is replaced by one dropdown,
a run of exactly one checkbox stays, everything else passes unchanged. -/
def specGroupFields (sectionTitle : String) : List Comp → List Comp
  | [] => []
  | f :: rest =>
    if isCheckboxComp f then
      (if 2 ≤ ((f :: rest).takeWhile isCheckboxComp).length then
        [Comp.dropdown ("dropdown_" ++ compId f) sectionTitle
          (((f :: rest).takeWhile isCheckboxComp).map compTitle)]
      else [f]) ++ specGroupFields sectionTitle ((f :: rest).dropWhile isCheckboxComp)
    else f :: specGroupFields sectionTitle rest
termination_by xs => xs.length
decreasing_by
  · simp_all [List.dropWhile_cons]
    exact Nat.lt_succ_of_le (dropWhileLengthLe _ _)
  · simp

theorem dropWhileHeadFalse {a : Type} (p : a → Bool) :
    ∀ (l : List a) (x : a) (r : List a), l.dropWhile p = x :: r → p x = false := by
  intro l
  induction l with
  | nil => intro x r h; simp [List.dropWhile] at h
  | cons y t ih =>
    intro x r h
    by_cases hy : p y
    · rw [List.dropWhile_cons, if_pos hy] at h
      exact ih x r h
    · rw [List.dropWhile_cons, if_neg hy] at h
      injection h with h1 h2
      subst h1
      simp only [Bool.not_eq_true] at hy
      exact hy

theorem groupLoop_acc (st : String) : ∀ (xs g : List Comp),
    groupLoop st g xs =
      flushCheckboxGroup st (g ++ xs.takeWhile isCheckboxComp) ++
      (match xs.dropWhile isCheckboxComp with
       | [] => []
       | f :: r => f :: groupLoop st [] r) := by
  intro xs
  induction xs with
  | nil => intro g; simp [groupLoop, List.takeWhile, List.dropWhile]
  | cons f rest ih =>
    intro g
    have e : groupLoop st g (f :: rest) =
        if isCheckboxComp f then groupLoop st (g ++ [f]) rest
        else flushCheckboxGroup st g ++ f :: groupLoop st [] rest := rfl
    by_cases hf : isCheckboxComp f
    · rw [List.takeWhile_cons, if_pos hf, List.dropWhile_cons, if_pos hf,
        e, if_pos hf, ih (g ++ [f])]
      simp
    · rw [List.takeWhile_cons, if_neg hf, List.dropWhile_cons, if_neg hf,
        e, if_neg hf]
      simp

theorem groupLoop_eq_spec (st : String) :
    ∀ (n : Nat) (xs : List Comp), xs.length ≤ n →
      groupLoop st [] xs = specGroupFields st xs := by
  intro n
  induction n with
  | zero =>
    intro xs h
    have : xs = [] := List.length_eq_zero.mp (Nat.le_zero.mp h)
    subst this
    simp [groupLoop, specGroupFields, flushCheckboxGroup]
  | succ n ih =>
    intro xs h
    match xs with
    | [] => simp [groupLoop, specGroupFields, flushCheckboxGroup]
    | f :: rest =>
      by_cases hf : isCheckboxComp f
      · rw [groupLoop_acc st (f :: rest) [], List.nil_append,
          specGroupFields, if_pos hf]
        congr 1
        · rw [List.takeWhile_cons, if_pos hf]
          by_cases h2 : 2 ≤ (f :: rest.takeWhile isCheckboxComp).length
          · rw [if_pos h2]
            unfold flushCheckboxGroup
            rw [if_pos (by simpa using h2)]
            simp
          · rw [if_neg h2]
            have hlen : (f :: rest.takeWhile isCheckboxComp).length < 2 :=
              Nat.lt_of_not_le h2
            simp only [List.length_cons] at hlen
            have hnil : rest.takeWhile isCheckboxComp = [] :=
              List.length_eq_zero.mp (by omega)
            rw [hnil]
            unfold flushCheckboxGroup
            simp
        · rw [List.dropWhile_cons, if_pos hf]
          cases hd : rest.dropWhile isCheckboxComp with
          | nil => simp [specGroupFields]
          | cons f2 r2 =>
            have hf2 : isCheckboxComp f2 = false := dropWhileHeadFalse _ rest f2 r2 hd
            have hr2 : r2.length ≤ n := by
              have h1 : (rest.dropWhile isCheckboxComp).length ≤ rest.length :=
                dropWhileLengthLe _ _
              rw [hd] at h1
              simp at h1 h
              omega
            rw [specGroupFields, if_neg (by simp [hf2])]
            show f2 :: groupLoop st [] r2 = f2 :: specGroupFields st r2
            rw [ih r2 hr2]
      · have e : groupLoop st [] (f :: rest) =
            if isCheckboxComp f then groupLoop st ([] ++ [f]) rest
            else flushCheckboxGroup st [] ++ f :: groupLoop st [] rest := rfl
        rw [e, if_neg hf, specGroupFields, if_neg hf]
        have hr : rest.length ≤ n := by simp at h; omega
        rw [ih rest hr]
        simp [flushCheckboxGroup]

/-- Claim C4: the schema builder post-pass replaces, in every section, each
maximal consecutive run of two or more checkbox components by one dropdown
whose id derives from the first checkbox id and whose options are the checkbox
titles in order, leaving single checkboxes unchanged; in particular the section
[text_field A, checkbox B, checkbox C, checkbox D, text_field E] becomes
[A, dropdown with options b, c, d, E] and the section [checkbox B] stays. -/
theorem claim_C4 :
    (∀ sections : List UiSection,
      group_checkboxes_to_dropdowns sections =
        sections.map (fun s => { s with fields := specGroupFields s.title s.fields })) ∧
    group_checkboxes_to_dropdowns
      [⟨"S", 1, [Comp.other "text_field" "A" "a", Comp.checkbox "B" "b",
        Comp.checkbox "C" "c", Comp.checkbox "D" "d",
        Comp.other "text_field" "E" "e"]⟩] =
      [⟨"S", 1, [Comp.other "text_field" "A" "a",
        Comp.dropdown "dropdown_B" "S" ["b", "c", "d"],
        Comp.other "text_field" "E" "e"]⟩] ∧
    group_checkboxes_to_dropdowns [⟨"S", 1, [Comp.checkbox "B" "b"]⟩] =
      [⟨"S", 1, [Comp.checkbox "B" "b"]⟩] := by
  refine ⟨?_, by decide, by decide⟩
  intro sections
  unfold group_checkboxes_to_dropdowns
  refine List.map_congr_left ?_
  intro s _
  rw [groupLoop_eq_spec s.title s.fields.length s.fields le_rfl]

/-! ## Hybrid detector (detect_acroform_fields and process_document,
src/main.py lines 42-135 and 251-320).  The document handle of the external
library is modelled as the data the source reads from it: the catalog
dictionary chain and, per page, its size and annotation list.  A structural
error raised anywhere while reading is modelled by the readRaises flag; the
try/except of the source turns any such error into the not-found result. -/

/-- An axis-aligned rectangle of the document library. -/
structure ARect where
  x0 : ℚ
  y0 : ℚ
  x1 : ℚ
  y1 : ℚ
deriving DecidableEq

/-- The data the source reads from one page annotation. -/
structure AnnotData where
  annotType : Int
  fieldType : Int
  fieldName : String
  fieldValue : String
  fieldLabel : String
  rect : ARect
deriving DecidableEq

/-- One page: size and annotations; a none entry models a falsy annotation
object, which the source skips. -/
structure PageData where
  width : ℚ
  height : ℚ
  annots : List (Option AnnotData)
deriving DecidableEq

/-- The AcroForm dictionary of the catalog: its Python truthiness and its
optional Fields entry, of which only presence and emptiness matter. -/
structure AcroDict where
  truthy : Bool
  fields : Option (List Unit)
deriving DecidableEq

/-- The document catalog: its Python truthiness and its optional AcroForm
entry. -/
structure CatDict where
  truthy : Bool
  acroform : Option AcroDict
deriving DecidableEq

/-- A document as read by detect_acroform_fields. -/
structure DocData where
  catalog : Option CatDict
  pages : List PageData
deriving DecidableEq

/-- The widget annotation type constant of the document library. -/
def PDF_ANNOT_WIDGET : Int := 20

/-- The fixed widget-type lookup table of the source, defaulting to
text_field: text 7, push button 1, checkbox 2, radio 5, combo 3, list 4,
signature 6. -/
def widgetFieldTypeName (t : Int) : String :=
  if t = 7 then "text_field"
  else if t = 1 then "checkbox"
  else if t = 2 then "checkbox"
  else if t = 5 then "radio"
  else if t = 3 then "dropdown"
  else if t = 4 then "listbox"
  else if t = 6 then "signature"
  else "text_field"

/-- One detected field region as built by the source. -/
structure FieldRegion where
  id : String
  page : Int
  ftype : String
  name : String
  label : String
  value : String
  rectNormalized : ℚ × ℚ × ℚ × ℚ
  rectAbsolute : ℚ × ℚ × ℚ × ℚ
  source : String
deriving DecidableEq

/-- The field region built for one widget annotation: ids carry the 0-indexed
page and the running region count, the name and label fall back through Python
or, coordinates are normalized by the page size. -/
def annotFieldRegion (pageNum idx : Nat) (pw ph : ℚ) (a : AnnotData) : FieldRegion :=
  let fname := pyOrS a.fieldName ("field_" ++ toString pageNum ++ "_" ++ toString idx)
  { id := "acro_" ++ toString pageNum ++ "_" ++ toString idx
    page := (pageNum : Int) + 1
    ftype := widgetFieldTypeName a.fieldType
    name := fname
    label := pyOrS a.fieldLabel fname
    value := pyOrS a.fieldValue ""
    rectNormalized := (a.rect.x0 / pw, a.rect.y0 / ph,
      (a.rect.x1 - a.rect.x0) / pw, (a.rect.y1 - a.rect.y0) / ph)
    rectAbsolute := (a.rect.x0, a.rect.y0, a.rect.x1, a.rect.y1)
    source := "acroform" }

/-- The inner annotation loop of one page: falsy and non-widget annotations are
skipped, widgets append a region numbered by the running count. -/
def pageWidgetRegions (pageNum : Nat) (p : PageData)
    (acc : List FieldRegion) : List FieldRegion :=
  p.annots.foldl
    (fun acc2 a =>
      match a with
      | none => acc2
      | some ad =>
        if ad.annotType ≠ PDF_ANNOT_WIDGET then acc2
        else acc2 ++ [annotFieldRegion pageNum acc2.length p.width p.height ad])
    acc

/-- The page loop of detect_acroform_fields. -/
def scanWidgetRegions (pages : List PageData) : List FieldRegion :=
  (pages.foldl (fun st p => (st.1 + 1, pageWidgetRegions st.1 p st.2))
    ((0 : Nat), ([] : List FieldRegion))).2

/-- detect_acroform_fields from src/main.py: the catalog chain checks, then the
widget scan; any structural read error yields the not-found pair. -/
def detect_acroform_fields (doc : DocData) (readRaises : Bool) :
    Bool × List FieldRegion :=
  if readRaises then (false, [])
  else
    match doc.catalog with
    | none => (false, [])
    | some cat =>
      if ¬cat.truthy then (false, [])
      else
        match cat.acroform with
        | none => (false, [])
        | some acro =>
          if ¬acro.truthy then (false, [])
          else
            match acro.fields with
            | none => (false, [])
            | some fl =>
              if fl.length = 0 then (false, [])
              else
                let regions := scanWidgetRegions doc.pages
                (decide (0 < regions.length), regions)

/-- The branch decision of process_document, lines 281-287: the returned field
regions, and whether the OCR fallback ran; the OCR result of the external
engine is a parameter. -/
def process_document_detect (doc : DocData) (readRaises : Bool)
    (ocrRegions : List FieldRegion) : List FieldRegion × Bool :=
  let res := detect_acroform_fields doc readRaises
  if res.1 then (res.2, false) else (ocrRegions, true)

theorem foldlWidgetSource (pageNum : Nat) (pw ph : ℚ) :
    ∀ (l : List (Option AnnotData)) (acc : List FieldRegion),
      (∀ r ∈ acc, r.source = "acroform") →
      ∀ r ∈ l.foldl (fun acc2 a =>
          match a with
          | none => acc2
          | some ad =>
            if ad.annotType ≠ PDF_ANNOT_WIDGET then acc2
            else acc2 ++ [annotFieldRegion pageNum acc2.length pw ph ad]) acc,
        r.source = "acroform" := by
  intro l
  induction l with
  | nil => intro acc hacc r hr; exact hacc r hr
  | cons a t ih =>
    intro acc hacc r hr
    rw [List.foldl_cons] at hr
    refine ih _ ?_ r hr
    intro r2 hr2
    match a with
    | none => exact hacc r2 hr2
    | some ad =>
      simp only at hr2
      by_cases hw : ad.annotType ≠ PDF_ANNOT_WIDGET
      · rw [if_pos hw] at hr2
        exact hacc r2 hr2
      · rw [if_neg hw] at hr2
        rcases List.mem_append.mp hr2 with h | h
        · exact hacc r2 h
        · simp at h
          subst h
          rfl

theorem pageWidgetRegions_source (pageNum : Nat) (p : PageData)
    (acc : List FieldRegion) (hacc : ∀ r ∈ acc, r.source = "acroform") :
    ∀ r ∈ pageWidgetRegions pageNum p acc, r.source = "acroform" :=
  foldlWidgetSource pageNum p.width p.height p.annots acc hacc

theorem scanWidgetRegions_source (pages : List PageData) :
    ∀ r ∈ scanWidgetRegions pages, r.source = "acroform" := by
  suffices hgen : ∀ (ps : List PageData) (st : Nat × List FieldRegion),
      (∀ r ∈ st.2, r.source = "acroform") →
      ∀ r ∈ (ps.foldl (fun st p => (st.1 + 1, pageWidgetRegions st.1 p st.2)) st).2,
        r.source = "acroform" by
    exact hgen pages (0, []) (by intro r hr; simp at hr)
  intro ps
  induction ps with
  | nil => intro st hst r hr; exact hst r hr
  | cons p t ih =>
    intro st hst r hr
    rw [List.foldl_cons] at hr
    exact ih _ (pageWidgetRegions_source st.1 p st.2 hst) r hr

theorem detect_shape (doc : DocData) (e : Bool) :
    detect_acroform_fields doc e = (false, []) ∨
    detect_acroform_fields doc e =
      (decide (0 < (scanWidgetRegions doc.pages).length), scanWidgetRegions doc.pages) := by
  unfold detect_acroform_fields
  rcases e with _ | _
  · rcases hc : doc.catalog with _ | cat
    · left; rfl
    · by_cases ht : cat.truthy
      · rcases ha : cat.acroform with _ | acro
        · simp [ht, ha]
        · by_cases ht2 : acro.truthy
          · rcases hf : acro.fields with _ | fl
            · simp [ht, ht2, ha, hf]
            · by_cases hl : fl.length = 0
              · simp [ht, ht2, hl, ha, hf]
              · right; simp [ht, ht2, hl, ha, hf]
          · simp [ht, ht2, ha]
      · simp [ht]
  · left; rfl

theorem detect_source (doc : DocData) (e : Bool) :
    ∀ r ∈ (detect_acroform_fields doc e).2, r.source = "acroform" := by
  rcases detect_shape doc e with h | h <;> rw [h]
  · intro r hr; simp at hr
  · exact scanWidgetRegions_source doc.pages

theorem detect_true_iff (doc : DocData) (e : Bool) :
    (detect_acroform_fields doc e).1 = true ↔
      (detect_acroform_fields doc e).2 ≠ [] := by
  rcases detect_shape doc e with h | h <;> rw [h] <;> simp [List.length_pos]

/-- Claim C1 as amended: if the structured extraction finds at least one field
region, the OCR fallback never runs and every returned region carries source
acroform (the literal tag the source writes, not the word structured); if it
finds none, the OCR fallback always runs and its regions are returned. -/
theorem claim_C1 (doc : DocData) (readRaises : Bool) (ocrRegions : List FieldRegion) :
    ((detect_acroform_fields doc readRaises).2 ≠ [] →
      (process_document_detect doc readRaises ocrRegions).2 = false ∧
      (process_document_detect doc readRaises ocrRegions).1 =
        (detect_acroform_fields doc readRaises).2 ∧
      ∀ r ∈ (process_document_detect doc readRaises ocrRegions).1,
        r.source = "acroform") ∧
    ((detect_acroform_fields doc readRaises).2 = [] →
      (process_document_detect doc readRaises ocrRegions).2 = true ∧
      (process_document_detect doc readRaises ocrRegions).1 = ocrRegions) := by
  constructor
  · intro hne
    have h1 : (detect_acroform_fields doc readRaises).1 = true :=
      (detect_true_iff doc readRaises).mpr hne
    refine ⟨by simp [process_document_detect, h1], by simp [process_document_detect, h1], ?_⟩
    intro r hr
    simp [process_document_detect, h1] at hr
    exact detect_source doc readRaises r hr
  · intro hnil
    have h1 : (detect_acroform_fields doc readRaises).1 = false := by
      cases hb : (detect_acroform_fields doc readRaises).1 with
      | false => rfl
      | true => exact absurd hnil ((detect_true_iff doc readRaises).mp hb)
    exact ⟨by simp [process_document_detect, h1], by simp [process_document_detect, h1]⟩

/-- A document whose catalog has a nonempty Fields array and one widget
annotation on its single page. -/
def docWithWidget : DocData :=
  ⟨some ⟨true, some ⟨true, some [()]⟩⟩,
   [⟨1, 1, [some ⟨20, 7, "n", "", "", ⟨0, 0, 1, 1⟩⟩]⟩]⟩

/-- Witness for claim C1: the widget document takes the structured branch and
skips OCR; the empty document takes the OCR branch. -/
theorem claim_C1_witness :
    ((detect_acroform_fields docWithWidget false).2 ≠ [] ∧
      (process_document_detect docWithWidget false []).2 = false ∧
      ∀ r ∈ (process_document_detect docWithWidget false []).1,
        r.source = "acroform") ∧
    ((detect_acroform_fields (⟨none, []⟩ : DocData) false).2 = [] ∧
      (process_document_detect (⟨none, []⟩ : DocData) false []).2 = true) :=
  ⟨⟨by decide, ((claim_C1 docWithWidget false []).1 (by decide)).1,
    ((claim_C1 docWithWidget false []).1 (by decide)).2.2⟩,
   ⟨by decide, ((claim_C1 (⟨none, []⟩ : DocData) false []).2 (by decide)).1⟩⟩

/-- Counterexample to claim C1 as stated: the widget document yields a
non-empty structured result, yet its regions do not carry source value
structured: the source writes the tag acroform. -/
theorem claim_C1_counterexample :
    (detect_acroform_fields docWithWidget false).2 ≠ [] ∧
    ¬(∀ r ∈ (process_document_detect docWithWidget false []).1,
        r.source = "structured") := by
  constructor
  · decide
  · decide

/-- Claim C6: whenever the embedded form-field definitions are absent, falsy or
empty at any step of the catalog chain, or a structural error is raised while
reading them, detect_acroform_fields returns the not-found pair, the error is
not propagated, and the detection falls through to the OCR fallback. -/
theorem claim_C6 (doc : DocData) (readRaises : Bool) (ocrRegions : List FieldRegion)
    (h : readRaises = true ∨ doc.catalog = none ∨
      ∃ cat, doc.catalog = some cat ∧ (cat.truthy = false ∨ cat.acroform = none ∨
        ∃ acro, cat.acroform = some acro ∧ (acro.truthy = false ∨ acro.fields = none ∨
          acro.fields = some []))) :
    detect_acroform_fields doc readRaises = (false, []) ∧
    (process_document_detect doc readRaises ocrRegions).2 = true ∧
    (process_document_detect doc readRaises ocrRegions).1 = ocrRegions := by
  have hdet : detect_acroform_fields doc readRaises = (false, []) := by
    rcases h with rfl | h2
    · simp [detect_acroform_fields]
    · cases readRaises with
      | true => simp [detect_acroform_fields]
      | false =>
        unfold detect_acroform_fields
        rcases h2 with hc | ⟨cat, hc, hcat⟩
        · simp [hc]
        · rcases hcat with ht | ha | ⟨acro, ha, hrest⟩
          · simp [hc, ht]
          · simp [hc, ha]
          · rcases hrest with ht2 | hf | hf
            · simp [hc, ha, ht2]
            · simp [hc, ha, hf]
            · simp [hc, ha, hf]
  exact ⟨hdet, by simp [process_document_detect, hdet],
    by simp [process_document_detect, hdet]⟩

/-- An OCR-detected sample region. -/
def ocrSample : FieldRegion :=
  ⟨"ocr_0_1", 1, "text_field", "field_0_1", "Name:", "", (0, 0, 1, 1), (0, 0, 1, 1), "ocr"⟩

/-- Witness for claim C6: a document without a catalog silently falls through
to the OCR result. -/
theorem claim_C6_witness :
    detect_acroform_fields (⟨none, []⟩ : DocData) false = (false, []) ∧
    (process_document_detect (⟨none, []⟩ : DocData) false [ocrSample]).2 = true ∧
    (process_document_detect (⟨none, []⟩ : DocData) false [ocrSample]).1 = [ocrSample] :=
  claim_C6 (⟨none, []⟩ : DocData) false [ocrSample] (Or.inr (Or.inl rfl))

/-! ## Content-type handling of the endpoints (src/main.py lines 677-705,
785-813 and 265-266).  The /ocr and /ui/generate handlers call
magic.from_buffer on the uploaded bytes, but the module never imports a name
magic: the import list at the top of src/main.py and the module-level
definitions are reproduced below, and resolving the name magic against them
fails, so in Python the expression raises NameError before any sniffing
happens.  The /process handler only tests the lowercased filename for the
suffix .pdf. -/

/-- Every name the import statements of src/main.py bind at module level. -/
def importedNames : List String :=
  ["FastAPI", "UploadFile", "File", "HTTPException", "Form", "Request",
   "JSONResponse", "FileResponse", "CORSMiddleware", "PaddleOCR",
   "tempfile", "os", "List", "Dict", "Any", "Optional", "Tuple",
   "re", "json", "fitz", "Image", "io", "base64", "uuid", "datetime"]

/-- Every further name defined at module level in src/main.py. -/
def moduleGlobalNames : List String :=
  ["ocr", "app", "health_check", "detect_acroform_fields",
   "infer_field_type_from_ocr", "detect_fields_via_ocr", "process_document",
   "pdf_to_images", "classify_field_type", "detect_component_type",
   "generate_ui_schema", "convert_field_to_ui", "group_checkboxes_to_dropdowns",
   "process_ocr_on_image", "flatten_ui_schema_to_components", "create_field_map",
   "ocr_endpoint", "ui_generate_endpoint", "overlay_pdf", "draw_checkmark",
   "insert_text_in_box"]

/-- Python global-name resolution for this module. -/
def resolveGlobal (n : String) : Bool :=
  importedNames.contains n || moduleGlobalNames.contains n

/-- The runtime error relevant here: an unresolved global name. -/
inductive PyRuntimeErr where
  | nameError (n : String)
deriving DecidableEq

/-- The extension produced by os.path.splitext, including the leading-dot rule:
no extension when every character before the last dot of the final path
component is itself a dot. -/
def splitextExt (filename : String) : String :=
  let base := (filename.splitOn "/").getLastD filename
  let cs := base.toList
  let k := cs.reverse.indexOf '.'
  if k = cs.length then ""
  else
    let dotPos := cs.length - 1 - k
    if (cs.take dotPos).all (fun c => c = '.') then ""
    else String.mk (cs.drop dotPos)

/-- The mime-to-extension mapping of the /ocr and /ui/generate handlers, with
the filename extension as fallback for unrecognized content. -/
def mimeToExt (mime : String) (filename : String) : String :=
  if mime = "application/pdf" then ".pdf"
  else if mime = "image/jpeg" ∨ mime = "image/jpg" then ".jpg"
  else if mime = "image/png" then ".png"
  else if mime = "image/bmp" ∨ mime = "image/x-ms-bmp" then ".bmp"
  else if mime = "image/tiff" ∨ mime = "image/x-tiff" then ".tiff"
  else pyLower (splitextExt filename)

/-- The content-type determination of the /ocr handler: the call
magic.from_buffer first resolves the global name magic; only if that succeeds
would the sniffed mime be mapped to an extension. -/
def ocr_endpoint_file_ext (sniffedMime filename : String) :
    Except PyRuntimeErr String :=
  if resolveGlobal "magic" then Except.ok (mimeToExt sniffedMime filename)
  else Except.error (PyRuntimeErr.nameError "magic")

/-- The identical content-type determination of the /ui/generate handler. -/
def ui_generate_file_ext (sniffedMime filename : String) :
    Except PyRuntimeErr String :=
  if resolveGlobal "magic" then Except.ok (mimeToExt sniffedMime filename)
  else Except.error (PyRuntimeErr.nameError "magic")

/-- The validation of the /process handler: only the lowercased filename is
examined, never the content. -/
def process_filename_ok (filename : String) : Bool :=
  endsWithStr (pyLower filename) ".pdf"

/-- Claim C8: the module never binds the name magic, so the sniffing path of
the /ocr and /ui/generate handlers raises NameError on every request instead of
determining the content type from the bytes; the /process handler indeed
validates by filename only, accepting exactly the names whose lowercased form
ends in .pdf, independent of content. -/
theorem claim_C8 :
    resolveGlobal "magic" = false ∧
    (∀ sniffedMime filename : String,
      ocr_endpoint_file_ext sniffedMime filename =
        Except.error (PyRuntimeErr.nameError "magic")) ∧
    (∀ sniffedMime filename : String,
      ui_generate_file_ext sniffedMime filename =
        Except.error (PyRuntimeErr.nameError "magic")) ∧
    (∀ filename : String,
      process_filename_ok filename = endsWithStr (pyLower filename) ".pdf") ∧
    process_filename_ok "scan.PDF" = true ∧
    process_filename_ok "scan.png" = false := by
  have hm : resolveGlobal "magic" = false := by decide
  refine ⟨hm, ?_, ?_, fun _ => rfl, by decide, by decide⟩ <;>
    intro sniffedMime filename <;>
    simp [ocr_endpoint_file_ext, ui_generate_file_ext, hm]
